import Mathlib

/-!
A shallow embedding of the gutenberg-galaxy batch content pipeline
(`factory.py`, `sharding_logic.py`) together with proofs about its
work-queue construction, tier assignment, tiered fallback chain, retry
policy, asset assembly, and completion-ledger handling.

Conventions of the embedding:
* Python strings are Lean `String`s (in this toolchain a `String` wraps a
  list of characters, matching Python's sequence-of-characters view).
* Python `Optional[str]` is `Option String`; Python truthiness of a string
  (`if s:`) is emptiness testing.
* The ledger file `state.json` is modelled by `LedgerFile`: it can be
  missing, unreadable/unparseable, or a parsed `processed_ids` list.
* Machine floats appear only as the constant `HIGH_VALUE_THRESHOLD = 0.2`
  and the delay constants; `int(n * 0.2)` is modelled as exact truncation
  `n * 2 / 10` (for the relevant magnitudes the float computation agrees
  with the exact rational), and delays are modelled as rationals.
-/

set_option maxRecDepth 8000

namespace GutenbergGalaxy

/-! ## Constants (factory.py lines 16-40) -/

/-- factory.py `MAX_BOOKS = 20`: the per-run item cap. -/
def MAX_BOOKS : Nat := 20

/-- factory.py `HIGH_VALUE_THRESHOLD = 0.2`, as the exact fraction 2/10. -/
def HIGH_VALUE_THRESHOLD_NUM : Nat := 2

/-- Denominator of `HIGH_VALUE_THRESHOLD` as an exact fraction. -/
def HIGH_VALUE_THRESHOLD_DEN : Nat := 10

/-- factory.py `MAX_RETRIES = 3`. -/
def MAX_RETRIES : Nat := 3

/-- factory.py `RETRY_BACKOFF = 10` (seconds, base of the retry backoff). -/
def RETRY_BACKOFF : Nat := 10

/-- factory.py `GEMINI_DELAY = (60 / GEMINI_RPM) + 2.0` with `GEMINI_RPM = 15`. -/
def GEMINI_DELAY : ℚ := 60 / 15 + 2

/-- factory.py `OPENAI_DELAY = (60 / OPENAI_RPM) + 3.0` with `OPENAI_RPM = 3`. -/
def OPENAI_DELAY : ℚ := 60 / 3 + 3

/-- factory.py `CLAUDE_DELAY = (60 / CLAUDE_RPM) + 2.0` with `CLAUDE_RPM = 5`. -/
def CLAUDE_DELAY : ℚ := 60 / 5 + 2

/-! ## Python string helpers used by the source

The source relies on Python `str` operations: slicing `s[:n]`,
`s.strip()`, `s.split()`, and truthiness.  They are modelled directly on
the character list underlying a Lean `String`. -/

/-- Python `s[:n]`: the first `n` characters of `s`. -/
def py_take (s : String) (n : Nat) : String := ⟨s.data.take n⟩

/-- Python `s or dflt` for strings: `s` if non-empty, else `dflt`. -/
def py_or (s dflt : String) : String := if s = "" then dflt else s

/-- Drop leading whitespace characters from a character list. -/
def dropWhileWs : List Char → List Char
  | [] => []
  | c :: cs => if c.isWhitespace then dropWhileWs cs else c :: cs

/-- Python `s.strip()`: remove leading and trailing whitespace. -/
def py_strip (s : String) : String :=
  ⟨(dropWhileWs (dropWhileWs s.data).reverse).reverse⟩

/-- Helper for Python `s.split()`: scan the characters, accumulating the
current (reversed) word, emitting words at whitespace boundaries. -/
def splitWsAux : List Char → List Char → List String
  | [], acc => if acc.isEmpty then [] else [⟨acc.reverse⟩]
  | c :: cs, acc =>
    if c.isWhitespace then
      if acc.isEmpty then splitWsAux cs [] else ⟨acc.reverse⟩ :: splitWsAux cs []
    else splitWsAux cs (c :: acc)

/-- Python `s.split()` (no separator): split on runs of whitespace,
dropping empty pieces. -/
def py_split_ws (s : String) : List String := splitWsAux s.data []

/-- Python truthiness of an `Optional[str]`: `None` and `""` are falsy. -/
def py_truthy : Option String → Bool
  | none => false
  | some s => !(s = "")

/-- Collapse a falsy optional string to `none`, as the source's `if x:`
branching does: `py_opt o = some s` exactly when `o` is a non-empty string. -/
def py_opt : Option String → Option String
  | none => none
  | some s => if s = "" then none else some s

/-! ## Completion ledger (sharding_logic.py lines 10-20, factory.py lines 58-64, 473-474) -/

/-- The states of the backing file `state.json` that the loaders
distinguish: absent, unreadable/unparseable, or parsed with a
`processed_ids` list. -/
inductive LedgerFile
  | missing
  | corrupt
  | valid (processed_ids : List String)
deriving DecidableEq

/-- factory.py `load_processed_ids` (lines 58-64): missing file yields the
empty set, any read/parse failure is swallowed by the bare `except` and
yields the empty set, otherwise the set of ids. -/
def load_processed_ids : LedgerFile → Finset String
  | .missing => ∅
  | .corrupt => ∅
  | .valid ids => ids.toFinset

/-- sharding_logic.py `load_state` (lines 10-15): identical fail-soft
loading of the `processed_ids` set. -/
def load_state : LedgerFile → Finset String
  | .missing => ∅
  | .corrupt => ∅
  | .valid ids => ids.toFinset

/-- Python `sorted(list(s))` for a set of strings: the elements in
(lexicographically) sorted order, without duplicates. -/
def sortedList (s : Finset String) : List String := s.sort (· ≤ ·)

/-- sharding_logic.py `save_state` (lines 17-20): re-load the existing
ledger, union with the new ids, and write the whole file back.  The
result is the file that the write produces. -/
def save_state (file : LedgerFile) (processed_ids : Finset String) : LedgerFile :=
  let existing := load_state file
  let merged := existing ∪ processed_ids
  .valid (sortedList merged)

/-- factory.py `main` line 473: `{"processed_ids": sorted(list(set(processed_ids)))}` —
the id list that the end-of-run write serializes. -/
def final_state_ids (processed_ids : List String) : List String :=
  sortedList processed_ids.toFinset

/-! ## Crash states of the ledger write (factory.py line 474, sharding_logic.py line 20)

Both writers use `Path.write_text`, which opens the target in mode `"w"`
(truncating it) and then writes the payload in place.  The on-disk states a
crash can expose are therefore the old content, a truncated or partially
written file (not parseable as the ledger JSON), and the completed file.
A write-then-rename replacement, by contrast, only ever exposes the old or
the new content under the target name. -/

/-- Crash-exposable on-disk states of an in-place `Path.write_text` of the
ledger: the old file, a truncated/partial (hence corrupt) file, the new file. -/
def write_text_crash_states (old : LedgerFile) (ids : List String) : List LedgerFile :=
  [old, .corrupt, .valid ids]

/-- Crash-exposable on-disk states of a write-then-rename replacement of
the ledger, as the spec requires: only the old or the new file. -/
def write_rename_crash_states (old : LedgerFile) (ids : List String) : List LedgerFile :=
  [old, .valid ids]

/-! ## Theorems about the ledger -/

/-- Claim C4: merging and persisting the completion ledger is a set union:
for every existing ledger `L` and new-ids set `N`, the persisted ledger
equals `L ∪ N` and is a superset of `L`; likewise the end-of-run write of
`main`, which serializes the loaded ids plus the newly appended ids,
persists exactly their union. -/
theorem save_state_union (file : LedgerFile) (N : Finset String) :
    load_state (save_state file N) = load_state file ∪ N ∧
    load_state file ⊆ load_state (save_state file N) ∧
    ∀ ids new : List String,
      (final_state_ids (ids ++ new)).toFinset = ids.toFinset ∪ new.toFinset := by
  refine ⟨?_, ?_, ?_⟩
  · show (sortedList (load_state file ∪ N)).toFinset = load_state file ∪ N
    exact Finset.sort_toFinset _ _
  · show load_state file ⊆ (sortedList (load_state file ∪ N)).toFinset
    rw [show (sortedList (load_state file ∪ N)).toFinset = load_state file ∪ N from
      Finset.sort_toFinset _ _]
    exact Finset.subset_union_left
  · intro ids new
    show (sortedList (ids ++ new).toFinset).toFinset = ids.toFinset ∪ new.toFinset
    rw [sortedList, Finset.sort_toFinset, List.toFinset_append]

/-- Claim C8: loading the completion ledger never raises — a missing,
unreadable, or corrupt backing file loads as the empty set (in both
loaders), and the subsequent whole-file write after a corrupt load
produces a valid file holding exactly the new ids. -/
theorem ledger_load_fails_soft :
    load_processed_ids LedgerFile.missing = ∅ ∧
    load_processed_ids LedgerFile.corrupt = ∅ ∧
    load_state LedgerFile.missing = ∅ ∧
    load_state LedgerFile.corrupt = ∅ ∧
    ∀ N : Finset String, ∃ l : List String,
      save_state LedgerFile.corrupt N = LedgerFile.valid l ∧ l.toFinset = N := by
  refine ⟨rfl, rfl, rfl, rfl, fun N => ⟨sortedList (∅ ∪ N), rfl, ?_⟩⟩
  show (sortedList (∅ ∪ N)).toFinset = N
  rw [sortedList, Finset.sort_toFinset, Finset.empty_union]

/-- Claim C9 (code bug): the ledger write is a plain in-place
truncate-then-write (`Path.write_text`), not a write-then-rename, so among
its crash-exposable states is a corrupt file which loads as the empty set
and loses the previously recorded ids; the rename-based write the spec
requires never exposes such a state. -/
theorem ledger_write_not_atomic :
    LedgerFile.corrupt ∈ write_text_crash_states (LedgerFile.valid ["1", "2"]) ["1", "2", "3"] ∧
    ¬ (∀ s ∈ write_text_crash_states (LedgerFile.valid ["1", "2"]) ["1", "2", "3"],
        load_state (LedgerFile.valid ["1", "2"]) ⊆ load_state s) ∧
    (∀ s ∈ write_rename_crash_states (LedgerFile.valid ["1", "2"]) ["1", "2", "3"],
        load_state (LedgerFile.valid ["1", "2"]) ⊆ load_state s) := by
  decide

/-- Claim C10: every persisted ledger file is canonical — both the
end-of-run write in `main` and `save_state` serialize a duplicate-free,
sorted id list. -/
theorem ledger_write_canonical :
    (∀ ids : List String,
      (final_state_ids ids).Sorted (· ≤ ·) ∧ (final_state_ids ids).Nodup) ∧
    (∀ (file : LedgerFile) (N : Finset String), ∃ l : List String,
      save_state file N = LedgerFile.valid l ∧ l.Sorted (· ≤ ·) ∧ l.Nodup) := by
  constructor
  · intro ids
    rw [final_state_ids, sortedList]
    exact ⟨Finset.sort_sorted _ _, Finset.sort_nodup _ _⟩
  · intro file N
    refine ⟨sortedList (load_state file ∪ N), rfl, ?_, ?_⟩
    · rw [sortedList]; exact Finset.sort_sorted _ _
    · rw [sortedList]; exact Finset.sort_nodup _ _

/-! ## Catalog rows and the work queue (factory.py lines 66-107)

A `Row` is one parsed catalog CSV record after column resolution: `id` is
the raw `Text#` cell (empty when absent), the text columns are raw cell
values, and `downloads` is the parsed popularity count (`0` for a
missing/blank cell).  CSV transport and column-name resolution are out of
scope (spec section 1); `hasDownloads` records whether a popularity column
was found (`actual_key`). -/

structure Row where
  id : String
  title : String
  author : String
  subjects : String
  downloads : Nat
deriving DecidableEq

/-- One work-queue entry, as built by `fetch_work_queue`. -/
structure QueueEntry where
  id : String
  title : String
  author : String
  subjects : String
  downloads : Nat
  rank : Nat
deriving DecidableEq

/-- factory.py line 94: `book_id = row.get(text_key, '').strip()`. -/
def book_id_of (row : Row) : String := py_strip row.id

/-- factory.py line 95: the queue keeps a row iff
`book_id and book_id not in processed`. -/
def eligible (processed : Finset String) (row : Row) : Bool :=
  decide (book_id_of row ≠ "" ∧ book_id_of row ∉ processed)

/-- factory.py lines 97-104: the dict appended to the queue; `rank` is the
1-based position in the (sorted) full catalog. -/
def mkQueueEntry (hasDownloads : Bool) (idx : Nat) (row : Row) : QueueEntry :=
  { id := book_id_of row
    title := py_strip row.title
    author := py_strip row.author
    subjects := py_strip row.subjects
    downloads := if hasDownloads then row.downloads else 0
    rank := idx + 1 }

/-- factory.py lines 92-106: the queue-building loop over the enumerated
(sorted) catalog.  After each row it checks `len(queue) >= MAX_BOOKS` and
breaks; `cap` here is the remaining capacity (`MAX_BOOKS - len(queue)`),
so the loop stops right after an append makes `cap ≤ 1`, and before an
ineligible row when `cap = 0`. -/
def collect_queue (processed : Finset String) (hasDownloads : Bool) :
    Nat → List (Nat × Row) → List QueueEntry
  | _, [] => []
  | cap, (idx, row) :: rest =>
    if eligible processed row then
      mkQueueEntry hasDownloads idx row ::
        (if cap ≤ 1 then [] else collect_queue processed hasDownloads (cap - 1) rest)
    else
      if cap = 0 then [] else collect_queue processed hasDownloads cap rest

/-- factory.py line 90: `all_books.sort(key=..., reverse=True)` — a stable
sort, descending by download count, ties keeping catalog order.
`List.insertionSort` with this relation computes exactly that stable
descending order. -/
def sort_by_downloads (books : List Row) : List Row :=
  books.insertionSort (fun a b => b.downloads ≤ a.downloads)

/-- factory.py `fetch_work_queue` (lines 66-107), after transport and
parsing: sort by downloads when the popularity column exists, then collect
up to `MAX_BOOKS` eligible rows. -/
def fetch_work_queue (processed : Finset String) (catalog : List Row)
    (hasDownloads : Bool) : List QueueEntry :=
  let all_books := if hasDownloads then sort_by_downloads catalog else catalog
  collect_queue processed hasDownloads MAX_BOOKS all_books.enum

/-! ## Tier assignment (factory.py lines 429-436) -/

/-- factory.py line 429: `premium_cutoff = int(len(queue) * HIGH_VALUE_THRESHOLD)` —
exact truncation of `n * 2/10`. -/
def premium_cutoff (n : Nat) : Nat :=
  n * HIGH_VALUE_THRESHOLD_NUM / HIGH_VALUE_THRESHOLD_DEN

/-- The per-item priority chosen in `main`. -/
inductive TierPriority
  | PREMIUM
  | STANDARD
deriving DecidableEq

/-- factory.py line 436: `"PREMIUM" if idx < premium_cutoff else "STANDARD"`. -/
def tier_priority_of (queueLen idx : Nat) : TierPriority :=
  if idx < premium_cutoff queueLen then .PREMIUM else .STANDARD

/-- The tier assigned to every queue position by `main`'s loop. -/
def assign_tiers (queue : List QueueEntry) : List (QueueEntry × TierPriority) :=
  queue.enum.map fun p => (p.2, tier_priority_of queue.length p.1)

/-- The split the spec's words prescribe instead:
`ceil(queue_length × PREMIUM_FRACTION)` with the same fraction 2/10.
This definition follows the spec, for comparison with `premium_cutoff`. -/
def spec_premium_count (n : Nat) : Nat :=
  (n * HIGH_VALUE_THRESHOLD_NUM + (HIGH_VALUE_THRESHOLD_DEN - 1)) /
    HIGH_VALUE_THRESHOLD_DEN

/-! ## Theorems about the work queue -/

/-- The collection loop is take-after-filter: with remaining capacity
`n + 1` it returns the first `n + 1` eligible rows, in order. -/
theorem collect_queue_eq_filter_take (processed : Finset String) (hd : Bool)
    (l : List (Nat × Row)) : ∀ n : Nat,
    collect_queue processed hd (n + 1) l =
      ((l.filter fun p => eligible processed p.2).take (n + 1)).map
        (fun p => mkQueueEntry hd p.1 p.2) := by
  induction l with
  | nil => intro n; simp [collect_queue]
  | cons p rest ih =>
    intro n
    obtain ⟨idx, row⟩ := p
    by_cases he : eligible processed row
    · rw [List.filter_cons_of_pos (p := fun p => eligible processed p.2)
        (a := (idx, row)) he, List.take_succ_cons, List.map_cons]
      simp only [collect_queue, if_pos he]
      cases n with
      | zero => simp
      | succ m =>
        have : ¬ m + 1 + 1 ≤ 1 := by omega
        rw [if_neg this]
        simpa using ih m
    · rw [List.filter_cons_of_neg (p := fun p => eligible processed p.2)
        (a := (idx, row)) he]
      simp only [collect_queue, if_neg he]
      rw [if_neg (by omega)]
      exact ih n

/-- Claim C3: the built queue filters out every completed id, keeps
scanning the raw catalog past completed items, and stops only at `cap` new
items or catalog exhaustion: its length is `min cap (number of eligible
rows)`; every entry has a non-empty id outside the completed set and comes
from a catalog row; and entries are in descending-downloads order. -/
theorem fetch_work_queue_cap (processed : Finset String) (catalog : List Row) :
    (fetch_work_queue processed catalog true).length
        = min MAX_BOOKS (catalog.countP (eligible processed)) ∧
    (∀ e ∈ fetch_work_queue processed catalog true,
        e.id ≠ "" ∧ e.id ∉ processed ∧
        ∃ r ∈ catalog, e.id = book_id_of r ∧ e.downloads = r.downloads) ∧
    (fetch_work_queue processed catalog true).Pairwise
        (fun a b => b.downloads ≤ a.downloads) := by
  have hperm : (sort_by_downloads catalog).Perm catalog :=
    List.perm_insertionSort _ _
  have hq : fetch_work_queue processed catalog true =
      (((sort_by_downloads catalog).enum.filter
          (fun p => eligible processed p.2)).take MAX_BOOKS).map
        (fun p => mkQueueEntry true p.1 p.2) := by
    show collect_queue processed true MAX_BOOKS (sort_by_downloads catalog).enum = _
    exact collect_queue_eq_filter_take processed true _ 19
  refine ⟨?_, ?_, ?_⟩
  · rw [hq, List.length_map, List.length_take]
    congr 1
    rw [← List.countP_eq_length_filter]
    have hmap := List.countP_map (eligible processed) Prod.snd
      (sort_by_downloads catalog).enum
    rw [List.enum_map_snd] at hmap
    calc ((sort_by_downloads catalog).enum.countP fun p => eligible processed p.2)
        = (sort_by_downloads catalog).countP (eligible processed) := by
          rw [hmap]; rfl
      _ = catalog.countP (eligible processed) := hperm.countP_eq _
  · intro e he
    rw [hq] at he
    obtain ⟨p, hp, rfl⟩ := List.mem_map.mp he
    have hpf : p ∈ (sort_by_downloads catalog).enum.filter
        (fun p => eligible processed p.2) := List.take_subset _ _ hp
    obtain ⟨hpe, helig⟩ := List.mem_filter.mp hpf
    obtain ⟨hid_ne, hid_nm⟩ := of_decide_eq_true helig
    have hrow : p.2 ∈ catalog := by
      have : p.2 ∈ List.map Prod.snd (sort_by_downloads catalog).enum :=
        List.mem_map_of_mem Prod.snd hpe
      rw [List.enum_map_snd] at this
      exact hperm.mem_iff.mp this
    exact ⟨hid_ne, hid_nm, p.2, hrow, rfl, rfl⟩
  · haveI : IsTotal Row (fun a b => b.downloads ≤ a.downloads) :=
      ⟨fun a b => le_total b.downloads a.downloads⟩
    haveI : IsTrans Row (fun a b => b.downloads ≤ a.downloads) :=
      ⟨fun _ _ _ hab hbc => le_trans hbc hab⟩
    have hsorted : (sort_by_downloads catalog).Pairwise
        (fun a b => b.downloads ≤ a.downloads) :=
      List.sorted_insertionSort _ catalog
    have henum : (sort_by_downloads catalog).enum.Pairwise
        (fun p q => q.2.downloads ≤ p.2.downloads) := by
      have := (List.pairwise_map
        (f := (Prod.snd : Nat × Row → Row))
        (R := fun a b => b.downloads ≤ a.downloads)
        (l := (sort_by_downloads catalog).enum)).mp
      rw [List.enum_map_snd] at this
      exact this hsorted
    rw [hq, List.pairwise_map]
    exact ((henum.filter _).sublist (List.take_sublist _ _))

/-- Witness for `fetch_work_queue_cap` at a concrete catalog: one
completed row, one blank-id row, three eligible rows. -/
theorem fetch_work_queue_cap_witness :
    let processed : Finset String := {"9"}
    let catalog : List Row :=
      [⟨"9", "done", "x", "s", 50⟩, ⟨"", "blank", "x", "s", 40⟩,
       ⟨"5", "five", "x", "s", 30⟩, ⟨"7", "seven", "x", "s", 60⟩]
    (mkQueueEntry true 0 ⟨"7", "seven", "x", "s", 60⟩).id ≠ "" ∧
    (mkQueueEntry true 0 ⟨"7", "seven", "x", "s", 60⟩).id ∉ processed ∧
    ∃ r ∈ catalog,
      (mkQueueEntry true 0 ⟨"7", "seven", "x", "s", 60⟩).id = book_id_of r ∧
      (mkQueueEntry true 0 ⟨"7", "seven", "x", "s", 60⟩).downloads = r.downloads := by
  intro processed catalog
  have happ := (fetch_work_queue_cap processed catalog).2.1
  exact happ (mkQueueEntry true 0 ⟨"7", "seven", "x", "s", 60⟩) (by decide)

/-- Counting PREMIUM assignments over an enumeration starting at `k`:
the indices below the cutoff contribute, so the count is
`min (cutoff - k) length`. -/
theorem countP_premium_enumFrom (n : Nat) (l : List QueueEntry) : ∀ k : Nat,
    (((List.enumFrom k l).map fun p => (p.2, tier_priority_of n p.1)).countP
        fun q => decide (q.2 = TierPriority.PREMIUM))
      = min (premium_cutoff n - k) l.length := by
  induction l with
  | nil => intro k; simp
  | cons e rest ih =>
    intro k
    rw [List.enumFrom_cons, List.map_cons, List.countP_cons, ih (k + 1)]
    by_cases hk : k < premium_cutoff n
    · have ht : tier_priority_of n k = TierPriority.PREMIUM := if_pos hk
      simp only [ht, decide_eq_true_eq, List.length_cons, if_true]
      omega
    · have ht : tier_priority_of n k = TierPriority.STANDARD := if_neg hk
      simp only [ht, decide_eq_true_eq, List.length_cons]
      rw [if_neg (by simp)]
      omega

/-- The premium cutoff never exceeds the queue length. -/
theorem premium_cutoff_le (n : Nat) : premium_cutoff n ≤ n := by
  have h1 : n * 2 / 10 ≤ n * 2 / 2 :=
    Nat.div_le_div_left (by norm_num) (by norm_num)
  have h2 : n * 2 / 2 = n := Nat.mul_div_cancel _ (by norm_num)
  have := le_trans h1 (le_of_eq h2)
  simpa [premium_cutoff, HIGH_VALUE_THRESHOLD_NUM, HIGH_VALUE_THRESHOLD_DEN]
    using this

/-- Claim C6 (amended): the tier split keeps the queue order, marks exactly
the first `int(queue_length * 0.2)` entries (truncation, not ceiling)
PREMIUM and the rest STANDARD; in particular a 20-item queue gets exactly
4 PREMIUM and 16 STANDARD entries. -/
theorem tier_split_floor (queue : List QueueEntry) :
    ((assign_tiers queue).map Prod.fst = queue) ∧
    (∀ (i : Nat) (h : i < (assign_tiers queue).length),
        ((assign_tiers queue).get ⟨i, h⟩).2
          = if i < premium_cutoff queue.length then TierPriority.PREMIUM
            else TierPriority.STANDARD) ∧
    ((assign_tiers queue).countP (fun p => decide (p.2 = TierPriority.PREMIUM))
        = premium_cutoff queue.length) ∧
    (queue.length = 20 →
      premium_cutoff queue.length = 4 ∧
      (assign_tiers queue).countP
          (fun p => decide (p.2 = TierPriority.PREMIUM)) = 4 ∧
      (assign_tiers queue).countP
          (fun p => decide (p.2 = TierPriority.STANDARD)) = 16) := by
  have hcount : (assign_tiers queue).countP
      (fun p => decide (p.2 = TierPriority.PREMIUM))
      = premium_cutoff queue.length := by
    have h0 := countP_premium_enumFrom queue.length queue 0
    rw [← List.enum_eq_enumFrom] at h0
    have hle := premium_cutoff_le queue.length
    calc (assign_tiers queue).countP
          (fun p => decide (p.2 = TierPriority.PREMIUM))
        = min (premium_cutoff queue.length - 0) queue.length := h0
      _ = premium_cutoff queue.length := by omega
  have hlen : (assign_tiers queue).length = queue.length := by
    simp [assign_tiers, List.enum_length]
  refine ⟨?_, ?_, hcount, ?_⟩
  · rw [assign_tiers, List.map_map]
    exact List.enum_map_snd queue
  · intro i h
    rw [List.get_eq_getElem]
    simp only [assign_tiers, List.getElem_map,
      List.getElem_enum, tier_priority_of]
  · intro h20
    have hcut : premium_cutoff queue.length = 4 := by
      rw [h20]
      rfl
    refine ⟨hcut, hcount.trans hcut, ?_⟩
    have hsplit := List.length_eq_countP_add_countP
      (fun p : QueueEntry × TierPriority => decide (p.2 = TierPriority.PREMIUM))
      (assign_tiers queue)
    have hcongr : (assign_tiers queue).countP
        (fun a => decide (¬ (decide (a.2 = TierPriority.PREMIUM)) = true))
        = (assign_tiers queue).countP
          (fun p => decide (p.2 = TierPriority.STANDARD)) := by
      apply List.countP_congr
      intro x _
      cases x.2 <;> simp
    rw [hcongr] at hsplit
    rw [hlen, h20, hcount.trans hcut] at hsplit
    omega

/-- Witness for `tier_split_floor`, instantiating the per-index rule at a
one-entry queue and the 20-item split. -/
theorem tier_split_floor_witness :
    let e : QueueEntry := ⟨"1", "t", "a", "s", 5, 1⟩
    (((assign_tiers [e]).get ⟨0, by decide⟩).2
        = if 0 < premium_cutoff [e].length then TierPriority.PREMIUM
          else TierPriority.STANDARD) ∧
    premium_cutoff (List.replicate 20 e).length = 4 ∧
    (assign_tiers (List.replicate 20 e)).countP
        (fun p => decide (p.2 = TierPriority.PREMIUM)) = 4 ∧
    (assign_tiers (List.replicate 20 e)).countP
        (fun p => decide (p.2 = TierPriority.STANDARD)) = 16 := by
  intro e
  exact ⟨(tier_split_floor [e]).2.1 0 (by decide),
    (tier_split_floor (List.replicate 20 e)).2.2.2 (by decide)⟩

/-- Claim C6, counterexample to the ceiling rule: a built queue of one
item gets zero PREMIUM entries from the code, while
`ceil(1 × 0.2) = 1` would demand one. -/
theorem tier_split_ceil_counterexample :
    (fetch_work_queue ∅ [⟨"1", "t", "a", "s", 5⟩] true).length = 1 ∧
    (assign_tiers (fetch_work_queue ∅ [⟨"1", "t", "a", "s", 5⟩] true)).countP
        (fun p => decide (p.2 = TierPriority.PREMIUM)) = 0 ∧
    spec_premium_count 1 = 1 ∧
    (0 : Nat) ≠ 1 := by
  decide

/-! ## Backend clients: retry loop (factory.py lines 113-261)

`call_chatgpt_api`, `call_claude_api` and `call_gemini_api` share one
control flow: for each of `MAX_RETRIES` attempts, sleep the provider's
pacing delay, issue the request, and then

* HTTP 200 with a parseable body: return the stripped text;
* HTTP 429: if not the last attempt, sleep `RETRY_BACKOFF * 2 ** attempt`
  and retry, else fall out of the loop and return `None`;
* any other HTTP status: return `None` immediately (no retry);
* any raised exception (connection error, timeout, JSON/key parse error):
  if not the last attempt, sleep the constant `RETRY_BACKOFF` and retry,
  else return `None`.

The network is modelled by a script `outcomes : Nat → AttemptOutcome`
giving each attempt's result.  `AttemptOutcome.status` is only meaningful
for non-200 codes: a 200 response either parses (`ok`) or raises (`exc`). -/

/-- The observable result of one HTTP attempt. -/
inductive AttemptOutcome
  | ok (text : String)
  | status (code : Nat)
  | exc
deriving DecidableEq

/-- What a whole call performs: its returned value, every sleep in order,
and the number of HTTP requests issued. -/
structure CallTrace where
  result : Option String
  delays : List ℚ
  attempts : Nat
deriving DecidableEq

/-- The retry loop, at attempt number `attempt` with `remaining` loop
iterations left (`remaining = MAX_RETRIES - attempt`). -/
def api_call_loop (pacing : ℚ) (outcomes : Nat → AttemptOutcome)
    (attempt : Nat) : Nat → CallTrace
  | 0 => ⟨none, [], 0⟩
  | remaining + 1 =>
    match outcomes attempt with
    | .ok t => ⟨some t, [pacing], 1⟩
    | .status c =>
      if c = 429 then
        if remaining = 0 then ⟨none, [pacing], 1⟩
        else
          let rest := api_call_loop pacing outcomes (attempt + 1) remaining
          ⟨rest.result, pacing :: ((RETRY_BACKOFF : ℚ) * 2 ^ attempt) :: rest.delays,
            rest.attempts + 1⟩
      else ⟨none, [pacing], 1⟩
    | .exc =>
      if remaining = 0 then ⟨none, [pacing], 1⟩
      else
        let rest := api_call_loop pacing outcomes (attempt + 1) remaining
        ⟨rest.result, pacing :: (RETRY_BACKOFF : ℚ) :: rest.delays, rest.attempts + 1⟩

/-- The shared `for attempt in range(MAX_RETRIES)` loop of the three
backend clients. -/
def api_call (pacing : ℚ) (outcomes : Nat → AttemptOutcome) : CallTrace :=
  api_call_loop pacing outcomes 0 MAX_RETRIES

/-- factory.py `call_chatgpt_api` (lines 113-166): immediate `None` when
the key is absent, else the retry loop with the OpenAI pacing delay. -/
def call_chatgpt_api (hasKey : Bool) (outcomes : Nat → AttemptOutcome) : CallTrace :=
  if hasKey then api_call OPENAI_DELAY outcomes else ⟨none, [], 0⟩

/-- factory.py `call_claude_api` (lines 168-217). -/
def call_claude_api (hasKey : Bool) (outcomes : Nat → AttemptOutcome) : CallTrace :=
  if hasKey then api_call CLAUDE_DELAY outcomes else ⟨none, [], 0⟩

/-- factory.py `call_gemini_api` (lines 219-261). -/
def call_gemini_api (hasKey : Bool) (outcomes : Nat → AttemptOutcome) : CallTrace :=
  if hasKey then api_call GEMINI_DELAY outcomes else ⟨none, [], 0⟩

/-! ## Theorems about the retry policy -/

/-- Claim C5 (amended): only HTTP 429 is retried with exponential backoff
`RETRY_BACKOFF * 2^attempt` (attempt counted from 0 at the first retry);
raised exceptions — timeouts, network errors, and response-parse errors —
are retried with the constant `RETRY_BACKOFF` delay; every other non-200
HTTP status (auth, client, and server errors alike) is terminal with no
retry; every attempt is preceded by the pacing delay; exhausting retries
or a terminal failure resolve to `None` without raising; a missing key
resolves to `None` without any request. -/
theorem retry_policy (pacing : ℚ) (outcomes : Nat → AttemptOutcome) :
    ((∀ n, outcomes n = .status 429) →
      api_call pacing outcomes =
        ⟨none, [pacing, (RETRY_BACKOFF : ℚ) * 2 ^ 0, pacing,
          (RETRY_BACKOFF : ℚ) * 2 ^ 1, pacing], MAX_RETRIES⟩) ∧
    ((∀ n, outcomes n = .exc) →
      api_call pacing outcomes =
        ⟨none, [pacing, (RETRY_BACKOFF : ℚ), pacing,
          (RETRY_BACKOFF : ℚ), pacing], MAX_RETRIES⟩) ∧
    (∀ c, c ≠ 200 → c ≠ 429 → outcomes 0 = .status c →
      api_call pacing outcomes = ⟨none, [pacing], 1⟩) ∧
    (∀ t, outcomes 0 = .ok t →
      api_call pacing outcomes = ⟨some t, [pacing], 1⟩) ∧
    (∀ outc, call_chatgpt_api false outc = ⟨none, [], 0⟩) := by
  refine ⟨?_, ?_, ?_, ?_, fun _ => rfl⟩
  · intro hall
    show api_call_loop pacing outcomes 0 3 = _
    simp [api_call_loop, hall 0, hall 1, hall 2, MAX_RETRIES]
  · intro hall
    show api_call_loop pacing outcomes 0 3 = _
    simp [api_call_loop, hall 0, hall 1, hall 2, MAX_RETRIES]
  · intro c h200 h429 h0
    show api_call_loop pacing outcomes 0 3 = _
    simp [api_call_loop, h0, h429]
  · intro t h0
    show api_call_loop pacing outcomes 0 3 = _
    simp [api_call_loop, h0]

/-- Witness for `retry_policy`: the always-429 script exhausts all three
attempts with exponential backoff, and an HTTP 500 on the first attempt is
terminal. -/
theorem retry_policy_witness :
    api_call OPENAI_DELAY (fun _ => AttemptOutcome.status 429) =
      ⟨none, [OPENAI_DELAY, (RETRY_BACKOFF : ℚ) * 2 ^ 0, OPENAI_DELAY,
        (RETRY_BACKOFF : ℚ) * 2 ^ 1, OPENAI_DELAY], MAX_RETRIES⟩ ∧
    api_call GEMINI_DELAY (fun _ => AttemptOutcome.status 500) =
      ⟨none, [GEMINI_DELAY], 1⟩ := by
  constructor
  · exact (retry_policy OPENAI_DELAY (fun _ => AttemptOutcome.status 429)).1
      (fun _ => rfl)
  · exact (retry_policy GEMINI_DELAY (fun _ => AttemptOutcome.status 500)).2.2.1
      500 (by decide) (by decide) rfl

/-- Claim C5, counterexample to the claimed taxonomy: a server error
(HTTP 500) is not retried at all — one attempt, not `MAX_RETRIES` — while
a parse/network exception is retried to exhaustion rather than being
terminal. -/
theorem retry_terminal_mix_counterexample :
    (api_call OPENAI_DELAY (fun _ => AttemptOutcome.status 500)).attempts = 1 ∧
    (api_call OPENAI_DELAY (fun _ => AttemptOutcome.exc)).attempts = MAX_RETRIES ∧
    MAX_RETRIES ≠ 1 := by
  refine ⟨rfl, rfl, by decide⟩

/-! ## Tiered insight generation (factory.py lines 267-349)

The three backend clients appear here abstractly as functions
`String → Option String` from prompt to result (the retry machinery above
determines such a function for a given network script).  The source tests
every intermediate result with `if x:`, i.e. Python truthiness, modelled
by `py_opt`. -/

/-- A single apostrophe, written via its character code. -/
def sq : String := (Char.ofNat 39).toString

/-- factory.py lines 276-278 and 338-340: the book context string. -/
def mk_context (title author subjects : String) : String :=
  let c := "Book: " ++ sq ++ title ++ sq ++ " by " ++ author
  if subjects = "" then c else c ++ " | Genre: " ++ py_take subjects 80

/-- factory.py lines 281-285: the premium stage-1 originating prompt. -/
def chatgpt_extract_prompt (context : String) : String :=
  context ++ "\n\nExtract ONE strategic business insight from this book" ++
    sq ++ "s themes for global financial architecture. Be specific."

/-- factory.py line 293: the premium stage-2 refining prompt. -/
def claude_refine_prompt (hypothesis : String) : String :=
  "Refine this insight (under 200 chars):\n" ++ hypothesis

/-- factory.py line 300: the premium stage-3 finalizing prompt. -/
def gemini_finalize_prompt (refined : String) : String :=
  "Finalize (under 200 chars):\n" ++ refined

/-- factory.py lines 312-315: the 2-AI chain's originating prompt. -/
def claude_extract_prompt (context : String) : String :=
  context ++ "\n\nExtract strategic business insight for financial architecture."

/-- factory.py line 322: the 2-AI chain's compressing prompt. -/
def gemini_compress_prompt (analysis : String) : String :=
  "Compress to under 200 chars:\n" ++ analysis

/-- factory.py lines 342-347: the standard (Gemini-only) prompt. -/
def standard_prompt (context : String) : String :=
  context ++ "\n\nExtract ONE UNIQUE strategic business insight " ++
    "for financial architecture. Be specific to this book. Under 200 characters."

/-- factory.py lines 48-51: the tier actually used, with its two
serialized labels (`value` is stored in the asset, `name` in the keywords). -/
inductive ProcessingTier
  | PREMIUM_3AI
  | PREMIUM_2AI
  | STANDARD
deriving DecidableEq

/-- The `.value` string of a `ProcessingTier` member. -/
def ProcessingTier.value : ProcessingTier → String
  | .PREMIUM_3AI => "3-AI (ChatGPT→Claude→Gemini)"
  | .PREMIUM_2AI => "2-AI (Claude→Gemini)"
  | .STANDARD => "1-AI (Gemini)"

/-- The `.name` string of a `ProcessingTier` member. -/
def ProcessingTier.name : ProcessingTier → String
  | .PREMIUM_3AI => "PREMIUM_3AI"
  | .PREMIUM_2AI => "PREMIUM_2AI"
  | .STANDARD => "STANDARD"

/-- factory.py `process_standard_asset` (lines 334-349): one Gemini call. -/
def process_standard_asset (gemini : String → Option String)
    (title author subjects : String) : Option String :=
  gemini (standard_prompt (mk_context title author subjects))

/-- factory.py `process_premium_asset` (lines 267-332).  The second
component models the returned tier: `none` stands for the mistyped value
produced by line 332's conditional-expression precedence slip
(`result, ProcessingTier.STANDARD if result else (None, ...)` groups as
`(result, (... if result else (None, ProcessingTier.STANDARD)))`), which
is only reachable when the standard fallback's result is falsy and makes
any later attribute access raise. -/
def process_premium_asset (chatgpt claude gemini : String → Option String)
    (title author subjects : String) : Option String × Option ProcessingTier :=
  let context := mk_context title author subjects
  match py_opt (chatgpt (chatgpt_extract_prompt context)) with
  | some hypothesis =>
    match py_opt (claude (claude_refine_prompt hypothesis)) with
    | some refined =>
      match py_opt (gemini (gemini_finalize_prompt refined)) with
      | some final => (some final, some .PREMIUM_3AI)
      | none => (some refined, some .PREMIUM_3AI)
    | none => (some hypothesis, some .PREMIUM_3AI)
  | none =>
    match py_opt (claude (claude_extract_prompt context)) with
    | some analysis =>
      match py_opt (gemini (gemini_compress_prompt analysis)) with
      | some final => (some final, some .PREMIUM_2AI)
      | none => (some analysis, some .PREMIUM_2AI)
    | none =>
      let result := process_standard_asset gemini title author subjects
      (result, if py_truthy result then some .STANDARD else none)

/-! ## Asset assembly (factory.py lines 351-384) -/

/-- factory.py line 363: `str(title or "Unknown")[:80]`. -/
def safe_title_of (title : String) : String := py_take (py_or title "Unknown") 80

/-- factory.py line 364: `str(author or "Unknown")[:50]`. -/
def safe_author_of (author : String) : String := py_take (py_or author "Unknown") 50

/-- The schema-shaped record built at factory.py lines 366-384. -/
structure InsightAsset where
  book_id : String
  source_book : String
  source_author : String
  processing_tier : String
  audience : String
  irreversible_insight : String
  cards : List String
  quiz : List (String × String)
  script_60s : String
  keywords : List String
deriving DecidableEq

/-- The pure dict construction of factory.py lines 363-384.  Returns
`none` when `safe_author.split()[0]` would raise `IndexError` (an
all-whitespace author), which the per-item handler in `main` turns into a
skipped item. -/
def assemble_asset (book_id title author insight : String)
    (actual_tier : ProcessingTier) : Option InsightAsset :=
  let safe_title := safe_title_of title
  let safe_author := safe_author_of author
  let kw2 := if safe_author = "" then some "Strategy"
             else (py_split_ws safe_author).head?
  match kw2 with
  | none => none
  | some kw =>
    some { book_id := book_id
           source_book := safe_title
           source_author := safe_author
           processing_tier := actual_tier.value
           audience := "professional"
           irreversible_insight := insight
           cards := ["Audit: " ++ py_take safe_title 30,
                     "Pivot: " ++ safe_author ++ sq ++ "s framework",
                     "Scale: Architecture"]
           quiz := [("Insight from " ++ sq ++ py_take safe_title 30 ++ sq ++ "?",
                      "Book-specific"),
                    ("Author?", safe_author)]
           script_60s := "Multi-AI insight from " ++ sq ++ safe_title ++ sq ++
             " by " ++ safe_author ++ "."
           keywords := ["Multi-AI", kw, actual_tier.name] }

/-- factory.py `generate_asset` (lines 351-384): run the tier's chain,
return `None` for a missing insight, else assemble the record.  A `none`
tier (the line-332 slip) or an `IndexError` in assembly surfaces as `none`
here, matching the per-item exception handling in `main`. -/
def generate_asset (chatgpt claude gemini : String → Option String)
    (book_id title author subjects : String) (tier_priority : TierPriority) :
    Option InsightAsset :=
  let r : Option String × Option ProcessingTier :=
    if tier_priority = .PREMIUM then
      process_premium_asset chatgpt claude gemini title author subjects
    else
      (process_standard_asset gemini title author subjects, some .STANDARD)
  match r.1 with
  | none => none
  | some insight =>
    match r.2 with
    | none => none
    | some actual_tier => assemble_asset book_id title author insight actual_tier

/-! ## Theorems about the fallback chain and assembly -/

/-- Truncation bound for the modelled Python slice. -/
theorem py_take_length_le (s : String) (n : Nat) : (py_take s n).length ≤ n := by
  show (s.data.take n).length ≤ n
  simp

/-- An all-whitespace-free split of a non-empty author is ruled out when
the split is non-empty; the empty string splits to nothing. -/
theorem py_split_ws_empty : py_split_ws "" = [] := rfl

/-- Claim C1 (amended): if stage 1 succeeds and stage 2 fails, stage 1's
text is the result (3-AI label); if stages 1-2 succeed and stage 3 fails,
stage 2's text is the result (3-AI label); if stage 1 fails the chain
first tries a 2-stage Claude→Gemini chain, and only when Claude also
fails does it fall back entirely to STANDARD — in which case, with the
standard backend always answering a non-empty `T`, every PREMIUM item
still yields an asset with insight `T` and the STANDARD tier-used label,
not dropped. -/
theorem premium_chain_fallback (chatgpt claude gemini : String → Option String)
    (title author subjects : String) :
    (∀ h, py_opt (chatgpt (chatgpt_extract_prompt
          (mk_context title author subjects))) = some h →
      py_opt (claude (claude_refine_prompt h)) = none →
      process_premium_asset chatgpt claude gemini title author subjects
        = (some h, some ProcessingTier.PREMIUM_3AI)) ∧
    (∀ h r, py_opt (chatgpt (chatgpt_extract_prompt
          (mk_context title author subjects))) = some h →
      py_opt (claude (claude_refine_prompt h)) = some r →
      py_opt (gemini (gemini_finalize_prompt r)) = none →
      process_premium_asset chatgpt claude gemini title author subjects
        = (some r, some ProcessingTier.PREMIUM_3AI)) ∧
    (∀ T, T ≠ "" → (∀ p, chatgpt p = none) → (∀ p, claude p = none) →
      (∀ p, gemini p = some T) →
      process_premium_asset chatgpt claude gemini title author subjects
        = (some T, some ProcessingTier.STANDARD) ∧
      (py_split_ws (safe_author_of author) ≠ [] →
        ∀ book_id,
          (generate_asset chatgpt claude gemini book_id title author subjects
              TierPriority.PREMIUM).map
            (fun a => (a.irreversible_insight, a.processing_tier))
            = some (T, ProcessingTier.STANDARD.value))) := by
  refine ⟨?_, ?_, ?_⟩
  · intro h h1 h2
    simp [process_premium_asset, h1, h2]
  · intro h r h1 h2 h3
    simp [process_premium_asset, h1, h2, h3]
  · intro T hT hcg hcl hgm
    have hpt : py_truthy (some T) = true := by
      simp [py_truthy, hT]
    have hpp : process_premium_asset chatgpt claude gemini title author subjects
        = (some T, some ProcessingTier.STANDARD) := by
      simp [process_premium_asset, hcg, hcl, hgm, py_opt,
        process_standard_asset, hpt]
    refine ⟨hpp, ?_⟩
    intro hw book_id
    obtain ⟨w, ws, hws⟩ := List.exists_cons_of_ne_nil hw
    have hsa : safe_author_of author ≠ "" := by
      intro h0
      rw [h0, py_split_ws_empty] at hws
      exact List.noConfusion hws
    simp [generate_asset, hpp, assemble_asset, hsa, hws]

/-- Witness for `premium_chain_fallback`: stage 2 failing keeps stage 1's
text with the 3-AI label; all originating stages failing degrades to the
standard backend's text with the STANDARD label. -/
theorem premium_chain_fallback_witness :
    process_premium_asset (fun _ => some "H") (fun _ => none) (fun _ => none)
        "Book" "Au" "" = (some "H", some ProcessingTier.PREMIUM_3AI) ∧
    process_premium_asset (fun _ => none) (fun _ => none) (fun _ => some "T")
        "Book" "Au" "" = (some "T", some ProcessingTier.STANDARD) ∧
    (generate_asset (fun _ => none) (fun _ => none) (fun _ => some "T")
        "1" "Book" "Au" "" TierPriority.PREMIUM).map
      (fun a => (a.irreversible_insight, a.processing_tier))
      = some ("T", ProcessingTier.STANDARD.value) := by
  have hfb := premium_chain_fallback (fun _ => none) (fun _ => none)
    (fun _ => some "T") "Book" "Au" ""
  refine ⟨?_, ?_, ?_⟩
  · exact (premium_chain_fallback (fun _ => some "H") (fun _ => none)
      (fun _ => none) "Book" "Au" "").1 "H" rfl rfl
  · exact (hfb.2.2 "T" (by decide) (fun _ => rfl) (fun _ => rfl)
      (fun _ => rfl)).1
  · exact (hfb.2.2 "T" (by decide) (fun _ => rfl) (fun _ => rfl)
      (fun _ => rfl)).2 (by decide) "1"

/-- Claim C1, counterexample to "stage-1 failure falls back entirely to
STANDARD": with ChatGPT failing but Claude succeeding, the chain settles
in the 2-AI Claude→Gemini tier, and the asset carries the 2-AI label, not
the STANDARD one. -/
theorem premium_stage1_fail_not_standard :
    process_premium_asset (fun _ => none) (fun _ => some "C") (fun _ => some "T")
        "t" "a" "" = (some "T", some ProcessingTier.PREMIUM_2AI) ∧
    ProcessingTier.PREMIUM_2AI ≠ ProcessingTier.STANDARD ∧
    (generate_asset (fun _ => none) (fun _ => some "C") (fun _ => some "T")
        "1" "t" "a" "" TierPriority.PREMIUM).map (fun a => a.processing_tier)
      = some ProcessingTier.PREMIUM_2AI.value ∧
    ProcessingTier.PREMIUM_2AI.value ≠ ProcessingTier.STANDARD.value := by
  decide

/-- Claim C7 (amended): assembly is a pure function that truncates the
title to ≤ 80 and the author to ≤ 50 characters, substitutes the literal
placeholder "Unknown" for missing title or author, and always produces
exactly 3 prompt cards but exactly 2 question/answer pairs, independent of
the insight text. -/
theorem assemble_asset_shape (book_id title author insight : String)
    (tier : ProcessingTier) (hw : py_split_ws (safe_author_of author) ≠ []) :
    ∃ a, assemble_asset book_id title author insight tier = some a ∧
      a.source_book = safe_title_of title ∧
      a.source_book.length ≤ 80 ∧
      a.source_author.length ≤ 50 ∧
      (title = "" → a.source_book = "Unknown") ∧
      (author = "" → a.source_author = "Unknown") ∧
      a.cards.length = 3 ∧
      a.quiz.length = 2 ∧
      a.irreversible_insight = insight := by
  obtain ⟨w, ws, hws⟩ := List.exists_cons_of_ne_nil hw
  have hsa : safe_author_of author ≠ "" := by
    intro h0
    rw [h0, py_split_ws_empty] at hws
    exact List.noConfusion hws
  have hasm : assemble_asset book_id title author insight tier
      = some { book_id := book_id
               source_book := safe_title_of title
               source_author := safe_author_of author
               processing_tier := tier.value
               audience := "professional"
               irreversible_insight := insight
               cards := ["Audit: " ++ py_take (safe_title_of title) 30,
                         "Pivot: " ++ safe_author_of author ++ sq ++ "s framework",
                         "Scale: Architecture"]
               quiz := [("Insight from " ++ sq ++ py_take (safe_title_of title) 30
                          ++ sq ++ "?", "Book-specific"),
                        ("Author?", safe_author_of author)]
               script_60s := "Multi-AI insight from " ++ sq ++ safe_title_of title
                 ++ sq ++ " by " ++ safe_author_of author ++ "."
               keywords := ["Multi-AI", w, tier.name] } := by
    simp [assemble_asset, hsa, hws]
  refine ⟨_, hasm, rfl, py_take_length_le _ _, py_take_length_le _ _,
    ?_, ?_, rfl, rfl, rfl⟩
  · intro h0
    subst h0
    show safe_title_of "" = "Unknown"
    decide
  · intro h0
    subst h0
    show safe_author_of "" = "Unknown"
    decide

/-- Witness for `assemble_asset_shape` at a concrete item. -/
theorem assemble_asset_shape_witness :
    ∃ a, assemble_asset "1" "" "" "I" ProcessingTier.STANDARD = some a ∧
      a.source_book = safe_title_of "" ∧
      a.source_book.length ≤ 80 ∧
      a.source_author.length ≤ 50 ∧
      ("" = "" → a.source_book = "Unknown") ∧
      ("" = "" → a.source_author = "Unknown") ∧
      a.cards.length = 3 ∧
      a.quiz.length = 2 ∧
      a.irreversible_insight = "I" :=
  assemble_asset_shape "1" "" "" "I" ProcessingTier.STANDARD (by decide)

/-- Claim C7, counterexample to the "at least 3 question/answer pairs"
and "Unknown Author" parts: the built quiz list has exactly 2 pairs, and a
missing author is rendered as "Unknown". -/
theorem assemble_quiz_pairs_counterexample :
    (assemble_asset "1" "Title" "An Author" "I" ProcessingTier.STANDARD).map
        (fun a => a.quiz.length) = some 2 ∧
    ¬ 3 ≤ 2 ∧
    (assemble_asset "1" "Title" "" "I" ProcessingTier.STANDARD).map
        (fun a => a.source_author) = some "Unknown" ∧
    ("Unknown" : String) ≠ "Unknown Author" := by
  decide

/-! ## Run controller (factory.py `main`, lines 396-486)

The per-item body (lines 434-471) runs inside `try`/`except`: a `None`
from generation, a `jsonschema.validate` failure (it raises), or a failure
of the gzip write each lands in the failure path — the item is counted
failed and the loop continues; only after a successful write is the item's
id appended to the in-memory `processed_ids`.  Schema validation is
modelled by a predicate `valid` (the schema file is external data), and
the success of the compressed write by `persist_ok`. -/

/-- The run's mutable state: the product files written so far, the
in-memory `processed_ids` list, and the failure counter. -/
structure RunState where
  storage : List (String × InsightAsset)
  processed_ids : List String
  failures : Nat

/-- One iteration of the loop of `main` (lines 434-471) for the item at
queue position `idx`. -/
def process_item (chatgpt claude gemini : String → Option String)
    (valid : InsightAsset → Bool) (persist_ok : String → Bool)
    (queueLen : Nat) (st : RunState) (idx : Nat) (item : QueueEntry) : RunState :=
  let tier_priority := tier_priority_of queueLen idx
  match generate_asset chatgpt claude gemini item.id item.title item.author
      item.subjects tier_priority with
  | none => { st with failures := st.failures + 1 }
  | some data =>
    if valid data then
      if persist_ok item.id then
        { st with storage := st.storage ++ [(item.id, data)]
                  processed_ids := st.processed_ids ++ [item.id] }
      else { st with failures := st.failures + 1 }
    else { st with failures := st.failures + 1 }

/-- The `for idx, item in enumerate(queue)` loop of `main`. -/
def run_items (chatgpt claude gemini : String → Option String)
    (valid : InsightAsset → Bool) (persist_ok : String → Bool)
    (queueLen : Nat) : RunState → List (Nat × QueueEntry) → RunState
  | st, [] => st
  | st, (idx, item) :: rest =>
    run_items chatgpt claude gemini valid persist_ok queueLen
      (process_item chatgpt claude gemini valid persist_ok queueLen st idx item) rest

/-- factory.py `main` (lines 420-474), from queue in hand to the final
ledger write: load the ledger into the in-memory list, process every
queue item, then write `sorted(list(set(processed_ids)))` in full. -/
def main_run (chatgpt claude gemini : String → Option String)
    (valid : InsightAsset → Bool) (persist_ok : String → Bool)
    (ledger0 : LedgerFile) (queue : List QueueEntry) : RunState × LedgerFile :=
  let st0 : RunState := ⟨[], sortedList (load_processed_ids ledger0), 0⟩
  let st := run_items chatgpt claude gemini valid persist_ok queue.length
    st0 queue.enum
  (st, .valid (final_state_ids st.processed_ids))

/-- The ids committed in a run state: written to storage with a
schema-valid asset. -/
def committed_ids (valid : InsightAsset → Bool) (st : RunState) : Finset String :=
  ((st.storage.filter fun pa => valid pa.2).map Prod.fst).toFinset

/-! ## Theorems about the validation-and-persistence gate -/

/-- One step either leaves storage and the ledger list untouched (counting
a failure), or commits: the asset was generated, passed validation, was
persisted, and only then was the id appended. -/
theorem process_item_dichotomy (chatgpt claude gemini : String → Option String)
    (valid : InsightAsset → Bool) (persist_ok : String → Bool)
    (queueLen : Nat) (st : RunState) (idx : Nat) (item : QueueEntry) :
    ((process_item chatgpt claude gemini valid persist_ok queueLen st idx item).storage
        = st.storage ∧
     (process_item chatgpt claude gemini valid persist_ok queueLen st idx item).processed_ids
        = st.processed_ids ∧
     (process_item chatgpt claude gemini valid persist_ok queueLen st idx item).failures
        = st.failures + 1) ∨
    (∃ data,
      generate_asset chatgpt claude gemini item.id item.title item.author
          item.subjects (tier_priority_of queueLen idx) = some data ∧
      valid data = true ∧ persist_ok item.id = true ∧
      (process_item chatgpt claude gemini valid persist_ok queueLen st idx item).storage
        = st.storage ++ [(item.id, data)] ∧
      (process_item chatgpt claude gemini valid persist_ok queueLen st idx item).processed_ids
        = st.processed_ids ++ [item.id] ∧
      (process_item chatgpt claude gemini valid persist_ok queueLen st idx item).failures
        = st.failures) := by
  cases hg : generate_asset chatgpt claude gemini item.id item.title item.author
      item.subjects (tier_priority_of queueLen idx) with
  | none =>
    left
    refine ⟨?_, ?_, ?_⟩ <;> simp [process_item, hg]
  | some data =>
    by_cases hv : valid data
    · by_cases hp : persist_ok item.id
      · right
        exact ⟨data, rfl, hv, hp, by simp [process_item, hg, hv, hp],
          by simp [process_item, hg, hv, hp], by simp [process_item, hg, hv, hp]⟩
      · left
        refine ⟨?_, ?_, ?_⟩ <;> simp [process_item, hg, hv, hp]
    · left
      refine ⟨?_, ?_, ?_⟩ <;> simp [process_item, hg, hv]

/-- The per-run invariant: every id in the in-memory list was there at
load time or has a committed asset. -/
theorem run_items_invariant (chatgpt claude gemini : String → Option String)
    (valid : InsightAsset → Bool) (persist_ok : String → Bool)
    (queueLen : Nat) (init : Finset String) :
    ∀ (l : List (Nat × QueueEntry)) (st : RunState),
      st.processed_ids.toFinset ⊆ init ∪ committed_ids valid st →
      (run_items chatgpt claude gemini valid persist_ok queueLen st l).processed_ids.toFinset
        ⊆ init ∪ committed_ids valid
            (run_items chatgpt claude gemini valid persist_ok queueLen st l) := by
  intro l
  induction l with
  | nil => intro st h; exact h
  | cons p rest ih =>
    intro st h
    obtain ⟨idx, item⟩ := p
    apply ih
    rcases process_item_dichotomy chatgpt claude gemini valid persist_ok
        queueLen st idx item with
      ⟨hs, hpids, _⟩ | ⟨data, _, hv, _, hs, hpids, _⟩
    · rw [hpids]
      unfold committed_ids
      rw [hs]
      exact h
    · rw [hpids]
      unfold committed_ids
      rw [hs]
      intro x hx
      rw [List.toFinset_append, Finset.mem_union] at hx
      rcases hx with hx | hx
      · rcases Finset.mem_union.mp (h hx) with hx2 | hx2
        · exact Finset.mem_union.mpr (Or.inl hx2)
        · refine Finset.mem_union.mpr (Or.inr ?_)
          rw [List.filter_append, List.map_append, List.toFinset_append]
          exact Finset.mem_union.mpr (Or.inl (by simpa [committed_ids] using hx2))
      · refine Finset.mem_union.mpr (Or.inr ?_)
        rw [List.filter_append, List.map_append, List.toFinset_append]
        refine Finset.mem_union.mpr (Or.inr ?_)
        simp only [List.mem_toFinset, List.mem_singleton] at hx
        subst hx
        simp [List.filter_cons, hv]

/-- Claim C2: an id is appended to the run's completed list only after its
asset passed validation and was written (the step dichotomy), and every id
in the persisted ledger was either loaded from the previous ledger or
committed during the run — no id enters the ledger without a successful
commit; failing items leave storage and the list untouched and the run
moves on. -/
theorem ledger_only_after_commit (chatgpt claude gemini : String → Option String)
    (valid : InsightAsset → Bool) (persist_ok : String → Bool)
    (ledger0 : LedgerFile) (queue : List QueueEntry) :
    (∀ (queueLen : Nat) (st : RunState) (idx : Nat) (item : QueueEntry),
      ((process_item chatgpt claude gemini valid persist_ok queueLen st idx item).storage
          = st.storage ∧
       (process_item chatgpt claude gemini valid persist_ok queueLen st idx item).processed_ids
          = st.processed_ids ∧
       (process_item chatgpt claude gemini valid persist_ok queueLen st idx item).failures
          = st.failures + 1) ∨
      (∃ data,
        generate_asset chatgpt claude gemini item.id item.title item.author
            item.subjects (tier_priority_of queueLen idx) = some data ∧
        valid data = true ∧ persist_ok item.id = true ∧
        (process_item chatgpt claude gemini valid persist_ok queueLen st idx item).storage
          = st.storage ++ [(item.id, data)] ∧
        (process_item chatgpt claude gemini valid persist_ok queueLen st idx item).processed_ids
          = st.processed_ids ++ [item.id] ∧
        (process_item chatgpt claude gemini valid persist_ok queueLen st idx item).failures
          = st.failures)) ∧
    load_state (main_run chatgpt claude gemini valid persist_ok ledger0 queue).2
      ⊆ load_processed_ids ledger0 ∪
          committed_ids valid
            (main_run chatgpt claude gemini valid persist_ok ledger0 queue).1 := by
  constructor
  · intro queueLen st idx item
    exact process_item_dichotomy chatgpt claude gemini valid persist_ok
      queueLen st idx item
  · have hload : load_state
        (main_run chatgpt claude gemini valid persist_ok ledger0 queue).2
        = (main_run chatgpt claude gemini valid persist_ok ledger0
            queue).1.processed_ids.toFinset := by
      show (final_state_ids _).toFinset = _
      rw [final_state_ids, sortedList, Finset.sort_toFinset]
      rfl
    rw [hload]
    show (run_items chatgpt claude gemini valid persist_ok queue.length
            ⟨[], sortedList (load_processed_ids ledger0), 0⟩
            queue.enum).processed_ids.toFinset
        ⊆ load_processed_ids ledger0 ∪ committed_ids valid
            (run_items chatgpt claude gemini valid persist_ok queue.length
              ⟨[], sortedList (load_processed_ids ledger0), 0⟩ queue.enum)
    apply run_items_invariant
    intro x hx
    refine Finset.mem_union.mpr (Or.inl ?_)
    show x ∈ load_processed_ids ledger0
    have hmem : x ∈ sortedList (load_processed_ids ledger0) :=
      List.mem_toFinset.mp hx
    simpa [sortedList, Finset.mem_sort] using hmem

end GutenbergGalaxy
